import Mathlib

/-!
# Verification of the Beta-VAE / WAE training core (`solver.py`)

Shallow embedding of the loss primitives, objective selector, iteration
controller and checkpoint manager of `solver.py`, together with theorems
settling the specification claims about them.

Tensors are embedded as functions `Fin B → Fin P → ℝ` (a batch of flattened
images) or `Fin B → Fin D → ℝ` (per-sample latent statistics).  Python
exceptions (assertion failures, `TypeError` on `None + tensor`,
`UnboundLocalError` on a never-assigned `loss`) are embedded as
`Except.error`; the Python value `None` returned by `reconstruction_loss`
for an unknown distribution label is embedded as the inner `Option` being
`none`.
-/

namespace BetaVAE

/-- The logistic function, `F.sigmoid`. -/
noncomputable def sigmoid (x : ℝ) : ℝ := 1 / (1 + Real.exp (-x))

/-- Per-element binary cross entropy with logits, in the numerically stable
form computed by `F.binary_cross_entropy_with_logits`:
`max(x,0) - x*y + log(1 + exp(-|x|))` for logit `x` and target `y`. -/
noncomputable def bce_with_logits (x y : ℝ) : ℝ :=
  max x 0 - x * y + Real.log (1 + Real.exp (-|x|))

/-- Textbook binary cross entropy between a logit and a target, the
mathematical definition the spec refers to:
`-(y·log σ(x) + (1-y)·log(1-σ(x)))`. -/
noncomputable def crossEntropy (x y : ℝ) : ℝ :=
  -(y * Real.log (sigmoid x) + (1 - y) * Real.log (1 - sigmoid x))

/-- The scalar returned in the `'bernoulli'` branch of `reconstruction_loss`:
`F.binary_cross_entropy_with_logits(x_recon, x, size_average=False)` sums the
per-element loss over the whole batch, and `.div(batch_size)` divides by the
batch size. -/
noncomputable def bernoulli_recon {B P : ℕ} (x x_recon : Fin B → Fin P → ℝ) : ℝ :=
  (∑ i, ∑ j, bce_with_logits (x_recon i j) (x i j)) / B

/-- The scalar returned in the `'gaussian'` branch of `reconstruction_loss`:
`F.mse_loss(F.sigmoid(x_recon), x, size_average=False).div(batch_size)`. -/
noncomputable def gaussian_recon {B P : ℕ} (x x_recon : Fin B → Fin P → ℝ) : ℝ :=
  (∑ i, ∑ j, (sigmoid (x_recon i j) - x i j) ^ 2) / B

/-- `reconstruction_loss(x, x_recon, distribution)` from `solver.py`.
The `assert batch_size != 0` is an `Except.error`; an unknown distribution
label makes the function return the Python value `None` (`Option.none`),
it does not raise. -/
noncomputable def reconstruction_loss {B P : ℕ} (x x_recon : Fin B → Fin P → ℝ)
    (distribution : String) : Except String (Option ℝ) :=
  if B = 0 then .error "AssertionError: batch_size != 0"
  else if distribution = "bernoulli" then .ok (some (bernoulli_recon x x_recon))
  else if distribution = "gaussian" then .ok (some (gaussian_recon x x_recon))
  else .ok none

/-- The scalar value `reconstruction_loss` wraps in `.ok (some _)` for a
supported distribution label. -/
noncomputable def recon_value {B P : ℕ} (x x_recon : Fin B → Fin P → ℝ)
    (distribution : String) : ℝ :=
  if distribution = "bernoulli" then bernoulli_recon x x_recon
  else gaussian_recon x x_recon

/-- The per-element KL term `klds = -0.5*(1 + logvar - mu.pow(2) - logvar.exp())`. -/
noncomputable def kld_elem (mu logvar : ℝ) : ℝ :=
  -(1 / 2) * (1 + logvar - mu ^ 2 - Real.exp logvar)

/-- `klds.sum(1).mean(0, True)` : sum over latent dimensions, mean over batch. -/
noncomputable def total_kld_val {B D : ℕ} (mu logvar : Fin B → Fin D → ℝ) : ℝ :=
  (∑ i, ∑ j, kld_elem (mu i j) (logvar i j)) / B

/-- `klds.mean(0)` : mean over the batch only, one value per latent dimension. -/
noncomputable def dimension_wise_kld_val {B D : ℕ} (mu logvar : Fin B → Fin D → ℝ) :
    Fin D → ℝ :=
  fun j => (∑ i, kld_elem (mu i j) (logvar i j)) / B

/-- `klds.mean(1).mean(0, True)` : mean over latent dimensions, mean over batch. -/
noncomputable def mean_kld_val {B D : ℕ} (mu logvar : Fin B → Fin D → ℝ) : ℝ :=
  (∑ i, (∑ j, kld_elem (mu i j) (logvar i j)) / D) / B

/-- `kl_divergence(mu, logvar)` from `solver.py`, on `[batch, latent_dim]`
inputs.  The `assert batch_size != 0` is an `Except.error`; otherwise the
three views (total, dimension-wise, mean) are returned. -/
noncomputable def kl_divergence {B D : ℕ} (mu logvar : Fin B → Fin D → ℝ) :
    Except String (ℝ × (Fin D → ℝ) × ℝ) :=
  if B = 0 then .error "AssertionError: batch_size != 0"
  else .ok (total_kld_val mu logvar, dimension_wise_kld_val mu logvar,
            mean_kld_val mu logvar)

/-- The reshape `mu.view(mu.size(0), mu.size(1))` applied to a 4-dimensional
tensor: for the view to be legal the two trailing spatial dimensions must be
singletons, and the result drops them. -/
def squeeze4 {B D : ℕ} (t : Fin B → Fin D → Fin 1 → Fin 1 → ℝ) :
    Fin B → Fin D → ℝ :=
  fun i j => t i j 0 0

/-- `kl_divergence` on 4-dimensional `[batch, latent_dim, 1, 1]` inputs:
both tensors are first reshaped to 2-D by the `ndimension() == 4` branches. -/
noncomputable def kl_divergence4 {B D : ℕ}
    (mu logvar : Fin B → Fin D → Fin 1 → Fin 1 → ℝ) :
    Except String (ℝ × (Fin D → ℝ) × ℝ) :=
  kl_divergence (squeeze4 mu) (squeeze4 logvar)

/-- Squared Euclidean distance between two points of `ℝ^d`
(the spec's wording in §4.3, step 5). -/
noncomputable def sqEuclid {d : ℕ} (u v : Fin d → ℝ) : ℝ :=
  ∑ j, (u j - v j) ^ 2

/-- `Wasserstein2_dist(z)` from `solver.py`, with the externally drawn
standard-normal reference sample `prior` and the matching `m` extracted from
the nonzero entries of the optimal-transport plan made explicit as
parameters: `torch.sqrt(torch.mean(torch.sum((z - prior[ix2])^2, dim=1)))`. -/
noncomputable def Wasserstein2_dist {N d : ℕ} (z prior : Fin N → Fin d → ℝ)
    (m : Fin N → Fin N) : ℝ :=
  Real.sqrt ((∑ i, ∑ j, (z i j - prior (m i) j) ^ 2) / N)

/-- `torch.clamp(v, lo, hi)`. -/
noncomputable def clamp (v lo hi : ℝ) : ℝ := min (max v lo) hi

/-- The capacity `C = torch.clamp(C_max/C_stop_iter*global_iter, 0, C_max)`
computed each step by the `'B'` objective. -/
noncomputable def capacityC (C_max C_stop_iter : ℝ) (global_iter : ℕ) : ℝ :=
  clamp (C_max / C_stop_iter * global_iter) 0 C_max

/-- One training step's loss computation in `Solver.train` (lines 194-208):
branch on the model family, call the loss primitives, and combine them
according to the objective.  A `None` reconstruction loss raises a
`TypeError` at `recon_loss + ...`, but only in a branch that actually runs
that addition (`objective` `'H'` or `'B'`, or the `'WAE'` family); a
model/objective combination that never assigns `loss` raises
`UnboundLocalError` at `loss.backward()` without ever adding the losses. -/
noncomputable def trainStepLoss {B P D N d : ℕ} (model objective : String)
    (beta gamma C_max C_stop_iter : ℝ) (global_iter : ℕ)
    (decoder_dist : String) (x x_recon : Fin B → Fin P → ℝ)
    (mu logvar : Fin B → Fin D → ℝ)
    (z prior : Fin N → Fin d → ℝ) (m : Fin N → Fin N) : Except String ℝ :=
  if model = "H" ∨ model = "B" then
    match reconstruction_loss x x_recon decoder_dist with
    | .error e => .error e
    | .ok rl =>
      match kl_divergence mu logvar with
      | .error e => .error e
      | .ok (total, _, _) =>
        if objective = "H" then
          match rl with
          | none => .error "TypeError: unsupported operand type(s) for +"
          | some recon => .ok (recon + beta * total)
        else if objective = "B" then
          match rl with
          | none => .error "TypeError: unsupported operand type(s) for +"
          | some recon =>
            .ok (recon + gamma * |total - capacityC C_max C_stop_iter global_iter|)
        else .error "UnboundLocalError: local variable loss"
  else if model = "WAE" then
    match reconstruction_loss x x_recon decoder_dist with
    | .error e => .error e
    | .ok none => .error "TypeError: unsupported operand type(s) for +"
    | .ok (some recon) => .ok (recon + Wasserstein2_dist z prior m)
  else .error "UnboundLocalError: local variable loss"

/-- The configuration fields of `args` that `Solver.__init__` validates. -/
structure Args where
  dataset : String
  model : String
  objective : String
deriving DecidableEq, Repr

/-- The part of the constructed solver decided by the validation logic of
`Solver.__init__`: channel count, decoder distribution, and the stored model
family and objective label. -/
structure SolverConfig where
  nc : ℕ
  decoder_dist : String
  model : String
  objective : String
deriving DecidableEq, Repr

/-- Python's `str.lower()` on ASCII identifiers, as applied to
`args.dataset`. -/
def strLower (s : String) : String := ⟨s.data.map Char.toLower⟩

/-- `Solver.__init__` (lines 91-133): the dataset table selects `nc` and
`decoder_dist`, an unknown dataset raises `NotImplementedError`; the model
family must be `'H'`, `'B'` or `'WAE'`, anything else raises; the objective
label is stored without any validation. -/
def solverInit (a : Args) : Except String SolverConfig :=
  if strLower a.dataset = "dsprites" then
    solverNet a 1 "bernoulli"
  else if strLower a.dataset = "3dchairs" then
    solverNet a 3 "gaussian"
  else if strLower a.dataset = "celeba" then
    solverNet a 3 "gaussian"
  else if strLower a.dataset = "cifar10" then
    solverNet a 3 "gaussian"
  else if strLower a.dataset = "church128" ∨ strLower a.dataset = "celebahq128"
      ∨ strLower a.dataset = "bedroom128" ∨ strLower a.dataset = "dog128" then
    solverNet a 3 "gaussian"
  else .error "NotImplementedError"
where
  /-- The model-family check that follows the dataset table. -/
  solverNet (a : Args) (nc : ℕ) (dist : String) : Except String SolverConfig :=
    if a.model = "H" ∨ a.model = "B" ∨ a.model = "WAE" then
      .ok ⟨nc, dist, a.model, a.objective⟩
    else .error "NotImplementedError: only support model H or B"

/-- The mutable solver state touched by the checkpoint manager: the global
iteration counter, the model and optimizer state blobs (abstract types `α`
and `β`: `torch.save`/`torch.load` round-trips them faithfully), and the five
visualization window identifier fields. -/
structure SolverState (α β : Type) where
  global_iter : ℕ
  net : α
  optim : β
  win_recon : Option String
  win_kld : Option String
  win_w2_dist : Option String
  win_mu : Option String
  win_var : Option String
deriving DecidableEq, Repr

/-- The window identifiers that `save_checkpoint` puts in `win_states`:
only `recon`, `kld`, `mu` and `var`. -/
structure WinStates where
  recon : Option String
  kld : Option String
  mu : Option String
  var : Option String
deriving DecidableEq, Repr

/-- The dictionary serialized by `save_checkpoint` (lines 548-558). -/
structure Checkpoint (α β : Type) where
  iter : ℕ
  win_states : WinStates
  model_states : α
  optim_states : β
deriving DecidableEq, Repr

/-- The checkpoint directory, a map from file name (tag) to stored blob. -/
def CkptStore (α β : Type) : Type := String → Option (Checkpoint α β)

/-- The states dictionary built by `save_checkpoint` from the solver state. -/
def mkCheckpoint {α β : Type} (s : SolverState α β) : Checkpoint α β :=
  { iter := s.global_iter
    win_states := { recon := s.win_recon, kld := s.win_kld,
                    mu := s.win_mu, var := s.win_var }
    model_states := s.net
    optim_states := s.optim }

/-- `Solver.save_checkpoint(filename)`: writes the states dictionary to the
file named by the tag, overwriting any previous blob there. -/
def save_checkpoint {α β : Type} (s : SolverState α β) (store : CkptStore α β)
    (tag : String) : CkptStore α β :=
  fun t => if t = tag then some (mkCheckpoint s) else store t

/-- The field restoration performed by `Solver.load_checkpoint` when the
file exists (lines 569-576): `iter`, the four saved windows, net and optim. -/
def applyCheckpoint {α β : Type} (s : SolverState α β) (c : Checkpoint α β) :
    SolverState α β :=
  { s with global_iter := c.iter
           win_recon := c.win_states.recon
           win_kld := c.win_states.kld
           win_var := c.win_states.var
           win_mu := c.win_states.mu
           net := c.model_states
           optim := c.optim_states }

/-- `Solver.load_checkpoint(filename)`: if the file exists, restore from it;
otherwise log a notice and leave the state untouched. -/
def load_checkpoint {α β : Type} (s : SolverState α β) (store : CkptStore α β)
    (tag : String) : SolverState α β :=
  match store tag with
  | some c => applyCheckpoint s c
  | none => s

/-- The iteration counter values visited by the training loop of
`Solver.train` (lines 187-260) when started with counter `g` and
`max_iter = K`: each pass increments the counter, runs a step, and exits
as soon as `global_iter >= max_iter` holds.  The data source cycles
indefinitely and is assumed to yield at least one batch per epoch. -/
def loopIters (K g : ℕ) : List ℕ :=
  if K ≤ g + 1 then [g + 1] else (g + 1) :: loopIters K (g + 1)
termination_by K - g
decreasing_by omega

/-- The value of `global_iter` when `Solver.train`, started with counter `g`
and `max_iter = K`, exits its loop: each pass increments the counter and the
loop ends as soon as `global_iter >= max_iter`. -/
def finalIter (K g : ℕ) : ℕ :=
  if K ≤ g + 1 then g + 1 else finalIter K (g + 1)
termination_by K - g
decreasing_by omega

/-- The periodic side effects of one pass of the training loop. -/
inductive TrainEvent where
  | gatherScalars
  | display
  | saveLast
  | savePermanent
deriving DecidableEq, Repr

/-- The side effects fired at iteration `i` of the loop (lines 214-256), in
source order: scalar summaries when visualization is on and
`global_iter % gather_step == 0`, progress/visualization at
`display_step`, the rolling `'last'` checkpoint at `save_step`, and the
iteration-tagged permanent checkpoint every 50000 iterations. -/
def stepEvents (viz_on : Bool) (gather_step display_step save_step i : ℕ) :
    List TrainEvent :=
  (if viz_on = true ∧ i % gather_step = 0 then [.gatherScalars] else []) ++
  (if i % display_step = 0 then [.display] else []) ++
  (if i % save_step = 0 then [.saveLast] else []) ++
  (if i % 50000 = 0 then [.savePermanent] else [])

/-- Number of loop iterations, out of a whole run started at counter 0 with
`max_iter = K`, at which a given periodic side effect fires (each such
iteration fires the event exactly once). -/
def eventCount (viz_on : Bool) (gather_step display_step save_step K : ℕ)
    (e : TrainEvent) : ℕ :=
  (loopIters K 0).countP
    (fun i => decide (e ∈ stepEvents viz_on gather_step display_step save_step i))

/-! ## Helper lemmas -/

/-- With a nonzero batch and a supported distribution label,
`reconstruction_loss` succeeds with the branch value. -/
theorem reconstruction_loss_eq_ok {B P : ℕ} (hB : B ≠ 0)
    (x x_recon : Fin B → Fin P → ℝ) (dist : String)
    (hd : dist = "bernoulli" ∨ dist = "gaussian") :
    reconstruction_loss x x_recon dist = .ok (some (recon_value x x_recon dist)) := by
  rcases hd with hd | hd <;> subst hd <;>
    simp [reconstruction_loss, recon_value, hB]

/-- With a nonzero batch, `kl_divergence` succeeds with the three views. -/
theorem kl_divergence_eq_ok {B D : ℕ} (hB : B ≠ 0)
    (mu logvar : Fin B → Fin D → ℝ) :
    kl_divergence mu logvar = .ok (total_kld_val mu logvar,
      dimension_wise_kld_val mu logvar, mean_kld_val mu logvar) := by
  simp [kl_divergence, hB]

/-! ## Claim C4 : unsupported distribution label in `reconstruction_loss` -/

/-- C4 counterexample: at the concrete unsupported label `"poisson"` (with a
batch of one all-zero one-pixel image), `reconstruction_loss` does not signal
an error — it returns the Python value `None` (embedded as `.ok none`),
refuting the claim that every other distribution label makes it signal an
error rather than silently return a value. -/
theorem C4_counterexample :
    ("poisson" ≠ "bernoulli" ∧ "poisson" ≠ "gaussian") ∧
    reconstruction_loss (fun (_ : Fin 1) (_ : Fin 1) => (0 : ℝ)) (fun _ _ => 0)
      "poisson" = .ok none := by
  refine ⟨⟨by decide, by decide⟩, ?_⟩
  simp [reconstruction_loss]

/-- C4 (amended): for every distribution label other than `'bernoulli'` and
`'gaussian'` (and a nonzero batch), `reconstruction_loss` silently returns
the Python value `None` instead of raising; the failure only surfaces later
in the training step, and only in a branch that actually adds the `None`
reconstruction loss to the other loss terms — a `TypeError` for model family
`'H'`/`'B'` with objective `'H'` or `'B'`, and for the `'WAE'` family
(with an unsupported objective the step instead dies of the unassigned
`loss`, an `UnboundLocalError`, before any addition). -/
theorem C4_unknown_distribution_returns_none {B P D N d : ℕ} (hB : B ≠ 0)
    (x x_recon : Fin B → Fin P → ℝ) (dist : String)
    (h1 : dist ≠ "bernoulli") (h2 : dist ≠ "gaussian")
    (model objective : String)
    (beta gamma C_max C_stop_iter : ℝ) (gi : ℕ)
    (mu logvar : Fin B → Fin D → ℝ)
    (z prior : Fin N → Fin d → ℝ) (m : Fin N → Fin N) :
    reconstruction_loss x x_recon dist = .ok none ∧
    ((model = "H" ∨ model = "B") → (objective = "H" ∨ objective = "B") →
      trainStepLoss model objective beta gamma C_max C_stop_iter gi dist
        x x_recon mu logvar z prior m
        = .error "TypeError: unsupported operand type(s) for +") ∧
    (model = "WAE" →
      trainStepLoss model objective beta gamma C_max C_stop_iter gi dist
        x x_recon mu logvar z prior m
        = .error "TypeError: unsupported operand type(s) for +") := by
  have hrl : reconstruction_loss x x_recon dist = .ok none := by
    simp [reconstruction_loss, hB, h1, h2]
  have hkl := kl_divergence_eq_ok hB mu logvar
  refine ⟨hrl, ?_, ?_⟩
  · intro hm ho
    rcases hm with hm | hm <;> subst hm <;>
      rcases ho with ho | ho <;> subst ho <;>
        simp [trainStepLoss, hrl, hkl]
  · intro hm
    subst hm
    simp [trainStepLoss, hrl]

/-- C4 witness: the amended theorem applied at the concrete label
`"poisson"`, model `'H'` and objective `'H'`, with a batch of one all-zero
one-pixel image; the first implication fires and yields the `TypeError`. -/
theorem C4_unknown_distribution_returns_none_witness :
    (1 ≠ 0 ∧ ("poisson" : String) ≠ "bernoulli" ∧ ("poisson" : String) ≠ "gaussian") ∧
    (reconstruction_loss (fun (_ : Fin 1) (_ : Fin 1) => (0 : ℝ)) (fun _ _ => 0)
        "poisson" = .ok none ∧
      ((("H" : String) = "H" ∨ ("H" : String) = "B") →
        (("H" : String) = "H" ∨ ("H" : String) = "B") →
        trainStepLoss "H" "H" 1 1 1 1 0 "poisson"
          (fun (_ : Fin 1) (_ : Fin 1) => (0 : ℝ)) (fun _ _ => 0)
          (fun (_ : Fin 1) (_ : Fin 1) => (0 : ℝ)) (fun _ _ => 0)
          (fun (_ : Fin 1) (_ : Fin 1) => (0 : ℝ)) (fun _ _ => 0) id
          = .error "TypeError: unsupported operand type(s) for +") ∧
      (("H" : String) = "WAE" →
        trainStepLoss "H" "H" 1 1 1 1 0 "poisson"
          (fun (_ : Fin 1) (_ : Fin 1) => (0 : ℝ)) (fun _ _ => 0)
          (fun (_ : Fin 1) (_ : Fin 1) => (0 : ℝ)) (fun _ _ => 0)
          (fun (_ : Fin 1) (_ : Fin 1) => (0 : ℝ)) (fun _ _ => 0) id
          = .error "TypeError: unsupported operand type(s) for +")) :=
  ⟨⟨by decide, by decide, by decide⟩,
    C4_unknown_distribution_returns_none (by decide) _ _ _ (by decide) (by decide)
      "H" "H" 1 1 1 1 0 _ _ _ _ id⟩

/-! ## Claim C5 : construction-time validation -/

/-- The dataset identifiers accepted by the constructor's table. -/
def datasetSupported (ds : String) : Prop :=
  strLower ds ∈ ["dsprites", "3dchairs", "celeba", "cifar10",
                 "church128", "celebahq128", "bedroom128", "dog128"]

instance (ds : String) : Decidable (datasetSupported ds) := by
  unfold datasetSupported; infer_instance

/-- The model families accepted by the constructor. -/
def modelSupported (m : String) : Prop := m = "H" ∨ m = "B" ∨ m = "WAE"

instance (m : String) : Decidable (modelSupported m) := by
  unfold modelSupported; infer_instance

/-- C5 counterexample: constructing a solver with the supported dataset
`'dsprites'` and model `'H'` but the unsupported objective label `'Z'`
succeeds — the constructor stores the objective without any validation —
refuting the claim that an unsupported objective fails fatally at
construction time. -/
theorem C5_counterexample :
    (("Z" : String) ≠ "H" ∧ ("Z" : String) ≠ "B") ∧
    solverInit ⟨"dsprites", "H", "Z"⟩ = .ok ⟨1, "bernoulli", "H", "Z"⟩ := by
  exact ⟨⟨by decide, by decide⟩, by rfl⟩

/-- An unsupported model family makes the model-check branch raise. -/
theorem solverNet_err (a : Args) (nc : ℕ) (dist : String)
    (hm : ¬ modelSupported a.model) :
    solverInit.solverNet a nc dist
      = .error "NotImplementedError: only support model H or B" := by
  simp only [modelSupported, not_or] at hm
  simp [solverInit.solverNet, hm.1, hm.2.1, hm.2.2]

/-- A supported model family makes the model-check branch succeed. -/
theorem solverNet_ok (a : Args) (nc : ℕ) (dist : String)
    (hm : modelSupported a.model) :
    solverInit.solverNet a nc dist = .ok ⟨nc, dist, a.model, a.objective⟩ := by
  unfold modelSupported at hm
  unfold solverInit.solverNet
  rw [if_pos hm]

/-- C5 (amended): an unsupported dataset identifier or unsupported model
family fails fatally at construction time, and every successfully
constructed configuration keeps the given model and objective and a
supported decoder distribution; but an unsupported objective label is not
checked at construction — the solver is built, and with a model family
`'H'`/`'B'` the first training step then fails with an `UnboundLocalError`
because no branch assigns `loss`. -/
theorem C5_construction_validation (a : Args) :
    (¬ datasetSupported a.dataset → solverInit a = .error "NotImplementedError") ∧
    (¬ modelSupported a.model → datasetSupported a.dataset →
      solverInit a = .error "NotImplementedError: only support model H or B") ∧
    (∀ cfg : SolverConfig, solverInit a = .ok cfg →
      cfg.model = a.model ∧ cfg.objective = a.objective ∧
        (cfg.decoder_dist = "bernoulli" ∨ cfg.decoder_dist = "gaussian")) ∧
    (∀ (B P D N d : ℕ) (x x_recon : Fin B → Fin P → ℝ)
        (mu logvar : Fin B → Fin D → ℝ)
        (z prior : Fin N → Fin d → ℝ) (m : Fin N → Fin N)
        (dist : String) (beta gamma C_max C_stop_iter : ℝ) (gi : ℕ),
      B ≠ 0 → (dist = "bernoulli" ∨ dist = "gaussian") →
      (a.model = "H" ∨ a.model = "B") →
      a.objective ≠ "H" → a.objective ≠ "B" →
      trainStepLoss a.model a.objective beta gamma C_max C_stop_iter gi dist
        x x_recon mu logvar z prior m
        = .error "UnboundLocalError: local variable loss") := by
  refine ⟨?_, ?_, ?_, ?_⟩
  · intro h
    simp only [datasetSupported, List.mem_cons, List.not_mem_nil, or_false,
      not_or] at h
    obtain ⟨h1, h2, h3, h4, h5, h6, h7, h8⟩ := h
    simp [solverInit, h1, h2, h3, h4, h5, h6, h7, h8]
  · intro hm hds
    unfold solverInit
    split_ifs with f1 f2 f3 f4 f5
    · exact solverNet_err a _ _ hm
    · exact solverNet_err a _ _ hm
    · exact solverNet_err a _ _ hm
    · exact solverNet_err a _ _ hm
    · exact solverNet_err a _ _ hm
    · exfalso
      simp only [datasetSupported, List.mem_cons, List.not_mem_nil, or_false]
        at hds
      tauto
  · intro cfg h
    by_cases hm : modelSupported a.model
    · unfold solverInit at h
      split_ifs at h <;>
        · rw [solverNet_ok a _ _ hm] at h
          cases h
          exact ⟨rfl, rfl, by simp⟩
    · unfold solverInit at h
      split_ifs at h <;> rw [solverNet_err a _ _ hm] at h <;> cases h
  · intro B P D N d x x_recon mu logvar z prior m dist beta gamma C_max
      C_stop_iter gi hB hdist hm hoH hoB
    have hrl := reconstruction_loss_eq_ok hB x x_recon dist hdist
    have hkl := kl_divergence_eq_ok hB mu logvar
    rcases hm with hm | hm <;> rw [hm] <;>
      simp [trainStepLoss, hrl, hkl, hoH, hoB]

/-- C5 witness: the amended theorem applied to the concrete configuration
`{dataset := "dsprites", model := "H", objective := "Z"}`; in particular its
fourth conjunct makes the first training step fail. -/
theorem C5_construction_validation_witness :
    (¬ datasetSupported "mnist" ∧ datasetSupported "dsprites") ∧
    (¬ modelSupported "X" ∧ modelSupported "H") ∧
    solverInit ⟨"mnist", "H", "H"⟩ = .error "NotImplementedError" ∧
    solverInit ⟨"dsprites", "X", "H"⟩
      = .error "NotImplementedError: only support model H or B" ∧
    trainStepLoss "H" "Z" 1 1 1 1 0 "bernoulli"
      (fun (_ : Fin 1) (_ : Fin 1) => (0 : ℝ)) (fun _ _ => 0)
      (fun (_ : Fin 1) (_ : Fin 1) => (0 : ℝ)) (fun _ _ => 0)
      (fun (_ : Fin 1) (_ : Fin 1) => (0 : ℝ)) (fun _ _ => 0) id
      = .error "UnboundLocalError: local variable loss" :=
  ⟨⟨by decide, by decide⟩, ⟨by decide, Or.inl rfl⟩,
    (C5_construction_validation ⟨"mnist", "H", "H"⟩).1 (by decide),
    (C5_construction_validation ⟨"dsprites", "X", "H"⟩).2.1 (by decide) (by decide),
    (C5_construction_validation ⟨"dsprites", "H", "Z"⟩).2.2.2 1 1 1 1 1
      _ _ _ _ _ _ id "bernoulli" 1 1 1 1 0 (by decide) (Or.inl rfl)
      (Or.inl rfl) (by decide) (by decide)⟩

/-! ## Claims C6, C7 : checkpoint round trip -/

/-- C6 counterexample: a solver whose Wasserstein-2 window identifier is
`some "w"` saves a checkpoint under `"last"`; loading that checkpoint into a
fresh solver state leaves the fresh state's `win_w2_dist` at `none`, because
`save_checkpoint` only serializes the `recon`/`kld`/`mu`/`var` windows —
refuting the claim that all visualization window identifiers (including the
Wasserstein-2 one) are restored. -/
theorem C6_counterexample :
    (load_checkpoint (⟨0, 0, 0, none, none, none, none, none⟩ : SolverState ℕ ℕ)
        (save_checkpoint
          ⟨7, 1, 2, some "r", some "k", some "w", some "m", some "v"⟩
          (fun _ => none) "last")
        "last").win_w2_dist
      ≠ (⟨7, 1, 2, some "r", some "k", some "w", some "m", some "v"⟩ :
          SolverState ℕ ℕ).win_w2_dist := by
  decide

/-- C6 (amended): for every solver state, `save_checkpoint(tag)` followed by
`load_checkpoint(tag)` restores the iteration counter, model state, optimizer
state and the `recon`/`kld`/`mu`/`var` window identifiers; the Wasserstein-2
distance window identifier is not part of the checkpoint and the loading
solver keeps its own value for it. -/
theorem C6_checkpoint_roundtrip_windows {α β : Type} (s t : SolverState α β)
    (store : CkptStore α β) (tag : String) :
    (load_checkpoint t (save_checkpoint s store tag) tag).global_iter
        = s.global_iter ∧
    (load_checkpoint t (save_checkpoint s store tag) tag).net = s.net ∧
    (load_checkpoint t (save_checkpoint s store tag) tag).optim = s.optim ∧
    (load_checkpoint t (save_checkpoint s store tag) tag).win_recon
        = s.win_recon ∧
    (load_checkpoint t (save_checkpoint s store tag) tag).win_kld = s.win_kld ∧
    (load_checkpoint t (save_checkpoint s store tag) tag).win_mu = s.win_mu ∧
    (load_checkpoint t (save_checkpoint s store tag) tag).win_var = s.win_var ∧
    (load_checkpoint t (save_checkpoint s store tag) tag).win_w2_dist
        = t.win_w2_dist := by
  simp [load_checkpoint, save_checkpoint, mkCheckpoint, applyCheckpoint]

/-- C7: for every solver state, checkpoint store and tag,
`save_checkpoint(tag)` followed by `load_checkpoint(tag)` restores the global
iteration counter exactly and yields identical model parameters and optimizer
state (serialization by `torch.save`/`torch.load` is embedded as the
identity on the stored blobs). -/
theorem C7_checkpoint_roundtrip_core {α β : Type} (s t : SolverState α β)
    (store : CkptStore α β) (tag : String) :
    (load_checkpoint t (save_checkpoint s store tag) tag).global_iter
        = s.global_iter ∧
    (load_checkpoint t (save_checkpoint s store tag) tag).net = s.net ∧
    (load_checkpoint t (save_checkpoint s store tag) tag).optim = s.optim := by
  simp [load_checkpoint, save_checkpoint, mkCheckpoint, applyCheckpoint]

/-! ## Claims C8, C10 : iteration controller -/

/-- When the loop starts strictly below `max_iter`, it visits exactly the
counter values `g+1, g+2, ..., K`. -/
theorem loopIters_eq_range' (K : ℕ) :
    ∀ g, g < K → loopIters K g = List.range' (g + 1) (K - g) := by
  have H : ∀ n g, K - g ≤ n → g < K → loopIters K g = List.range' (g + 1) (K - g) := by
    intro n
    induction n with
    | zero => intro g hle hlt; omega
    | succ n ih =>
      intro g hle hlt
      unfold loopIters
      split
      · have hKg : K - g = 1 := by omega
        rw [hKg]
        rfl
      · rw [ih (g + 1) (by omega) (by omega)]
        have hKg : K - g = (K - (g + 1)) + 1 := by omega
        rw [hKg, List.range'_succ]
  intro g h
  exact H (K - g) g le_rfl h

/-- When the loop starts at or above `max_iter`, it still runs exactly one
pass (the exit test only runs after a full step). -/
theorem loopIters_of_ge (K g : ℕ) (h : K ≤ g) : loopIters K g = [g + 1] := by
  unfold loopIters
  rw [if_pos (by omega)]

/-- The exit counter below threshold: the loop leaves off exactly at `K`. -/
theorem finalIter_of_lt (K : ℕ) : ∀ g, g < K → finalIter K g = K := by
  have H : ∀ n g, K - g ≤ n → g < K → finalIter K g = K := by
    intro n
    induction n with
    | zero => intro g hle hlt; omega
    | succ n ih =>
      intro g hle hlt
      unfold finalIter
      split
      · omega
      · exact ih (g + 1) (by omega) (by omega)
  intro g h
  exact H (K - g) g le_rfl h

/-- The exit counter when already at or above threshold: one more pass runs
and the loop exits with counter `g + 1`. -/
theorem finalIter_of_ge (K g : ℕ) (h : K ≤ g) : finalIter K g = g + 1 := by
  unfold finalIter
  rw [if_pos (by omega)]

/-- C8 counterexample: with `max_iter = 1` and the counter restored from a
checkpoint at `5`, the loop still runs one pass and exits with the counter at
`6`, not at `max_iter = 1` — refuting the claim that for every initial
counter value the loop exits with the counter equal to `max_iter`. -/
theorem C8_counterexample :
    (1 : ℕ) ≤ 1 ∧ finalIter 1 5 = 6 ∧ (6 : ℕ) ≠ 1 := by
  refine ⟨le_rfl, ?_, by decide⟩
  unfold finalIter
  rfl

/-- C8 (amended): for every `max_iter = K ≥ 1` and initial counter `g`,
`train()` terminates; when `g < K` the loop runs exactly `K - g` passes and
exits exactly when the counter reaches `K`, with the counter equal to `K` at
exit and no earlier exit; when the initial counter is already at or above
`K`, one more pass still runs and the loop exits with counter `g + 1`. -/
theorem C8_loop_termination_exit (K g : ℕ) (hK : 1 ≤ K) :
    (g < K → finalIter K g = K ∧ (loopIters K g).length = K - g) ∧
    (K ≤ g → finalIter K g = g + 1 ∧ (loopIters K g).length = 1) := by
  constructor
  · intro h
    refine ⟨finalIter_of_lt K g h, ?_⟩
    rw [loopIters_eq_range' K g h, List.length_range']
  · intro h
    refine ⟨finalIter_of_ge K g h, ?_⟩
    rw [loopIters_of_ge K g h]
    rfl

/-- C8 witness: the amended theorem at `max_iter = 3` from a fresh counter
(`g = 0`, exit at 3 after 3 passes) and at `max_iter = 1` from a checkpointed
counter `g = 5` (exit at 6 after one pass). -/
theorem C8_loop_termination_exit_witness :
    ((1 : ℕ) ≤ 3 ∧ (0 : ℕ) < 3 ∧ (finalIter 3 0 = 3 ∧ (loopIters 3 0).length = 3 - 0)) ∧
    ((1 : ℕ) ≤ 1 ∧ (1 : ℕ) ≤ 5 ∧ (finalIter 1 5 = 5 + 1 ∧ (loopIters 1 5).length = 1)) :=
  ⟨⟨by decide, by decide, (C8_loop_termination_exit 3 0 (by decide)).1 (by decide)⟩,
   ⟨by decide, by decide, (C8_loop_termination_exit 1 5 (by decide)).2 (by decide)⟩⟩

/-- Counting the multiples of a cadence among the counter values `1..K`
gives exactly `⌊K / c⌋`. -/
theorem countP_multiples (c K : ℕ) :
    (List.range' 1 K).countP (fun i => decide (i % c = 0)) = K / c := by
  induction K with
  | zero => simp
  | succ n ih =>
    rw [List.range'_concat, List.countP_append, ih, Nat.succ_div]
    have e : 1 + 1 * n = n + 1 := by ring
    rw [e]
    by_cases h : (n + 1) % c = 0
    · have hd : c ∣ n + 1 := Nat.dvd_iff_mod_eq_zero.mpr h
      simp [h, hd, List.countP_cons]
    · have hd : ¬ c ∣ n + 1 := fun hc => h (Nat.dvd_iff_mod_eq_zero.mp hc)
      simp [h, hd, List.countP_cons]

/-- Membership of the scalar-summary event in a step's side effects. -/
theorem gatherScalars_mem_stepEvents (v : Bool) (gs ds ss i : ℕ) :
    TrainEvent.gatherScalars ∈ stepEvents v gs ds ss i ↔ v = true ∧ i % gs = 0 := by
  unfold stepEvents
  split_ifs <;> simp_all

/-- Membership of the progress/visualization event in a step's side effects. -/
theorem display_mem_stepEvents (v : Bool) (gs ds ss i : ℕ) :
    TrainEvent.display ∈ stepEvents v gs ds ss i ↔ i % ds = 0 := by
  unfold stepEvents
  split_ifs <;> simp_all

/-- Membership of the rolling checkpoint event in a step's side effects. -/
theorem saveLast_mem_stepEvents (v : Bool) (gs ds ss i : ℕ) :
    TrainEvent.saveLast ∈ stepEvents v gs ds ss i ↔ i % ss = 0 := by
  unfold stepEvents
  split_ifs <;> simp_all

/-- Membership of the permanent checkpoint event in a step's side effects. -/
theorem savePermanent_mem_stepEvents (v : Bool) (gs ds ss i : ℕ) :
    TrainEvent.savePermanent ∈ stepEvents v gs ds ss i ↔ i % 50000 = 0 := by
  unfold stepEvents
  split_ifs <;> simp_all

/-- Over a run from counter `0` to `max_iter = K`, an event that fires at the
iterations divisible by `c` fires at exactly `⌊K / c⌋` iterations. -/
theorem eventCount_eq_div (v : Bool) (gs ds ss K : ℕ) (hK : 1 ≤ K)
    (e : TrainEvent) (c : ℕ)
    (he : ∀ i, e ∈ stepEvents v gs ds ss i ↔ i % c = 0) :
    eventCount v gs ds ss K e = K / c := by
  unfold eventCount
  rw [loopIters_eq_range' K 0 hK, Nat.sub_zero, Nat.zero_add]
  have hcong : (List.range' 1 K).countP
        (fun i => decide (e ∈ stepEvents v gs ds ss i))
      = (List.range' 1 K).countP (fun i => decide (i % c = 0)) :=
    List.countP_congr (fun i _ => by simp [he i])
  rw [hcong, countP_multiples]

/-- C10: with visualization enabled, a run from counter `0` to `max_iter = K`
fires the scalar-summary event at exactly `⌊K / gather_step⌋` iterations, the
progress/visualization event at `⌊K / display_step⌋`, the rolling `'last'`
checkpoint at `⌊K / save_step⌋` and the permanent iteration-tagged checkpoint
at `⌊K / 50000⌋` (one event per such iteration); the final iteration executed
is `K`, and when `K` is a multiple of `save_step` its pass writes exactly one
`'last'` checkpoint — the terminal checkpoint at iteration `K`. -/
theorem C10_event_cadence_counts (K gs ds ss : ℕ) (hK : 1 ≤ K)
    (hgs : 0 < gs) (hds : 0 < ds) (hss : 0 < ss) :
    eventCount true gs ds ss K .gatherScalars = K / gs ∧
    eventCount true gs ds ss K .display = K / ds ∧
    eventCount true gs ds ss K .saveLast = K / ss ∧
    eventCount true gs ds ss K .savePermanent = K / 50000 ∧
    finalIter K 0 = K ∧
    (K % ss = 0 → (stepEvents true gs ds ss K).count .saveLast = 1) := by
  refine ⟨?_, ?_, ?_, ?_, finalIter_of_lt K 0 hK, ?_⟩
  · exact eventCount_eq_div true gs ds ss K hK _ gs
      (fun i => by rw [gatherScalars_mem_stepEvents]; simp)
  · exact eventCount_eq_div true gs ds ss K hK _ ds
      (fun i => display_mem_stepEvents true gs ds ss i)
  · exact eventCount_eq_div true gs ds ss K hK _ ss
      (fun i => saveLast_mem_stepEvents true gs ds ss i)
  · exact eventCount_eq_div true gs ds ss K hK _ 50000
      (fun i => savePermanent_mem_stepEvents true gs ds ss i)
  · intro h
    unfold stepEvents
    split_ifs <;> simp_all [List.count_append, List.count_cons]

/-- C10 witness: the theorem at `max_iter = 6` with cadences
`gather_step = 2`, `display_step = 3`, `save_step = 2`: 3 scalar summaries,
2 display events, 3 rolling checkpoints, no permanent checkpoint, final
iteration 6, and one terminal checkpoint at 6. -/
theorem C10_event_cadence_counts_witness :
    ((1 : ℕ) ≤ 6 ∧ (0 : ℕ) < 2 ∧ (0 : ℕ) < 3) ∧
    (eventCount true 2 3 2 6 .gatherScalars = 6 / 2 ∧
     eventCount true 2 3 2 6 .display = 6 / 3 ∧
     eventCount true 2 3 2 6 .saveLast = 6 / 2 ∧
     eventCount true 2 3 2 6 .savePermanent = 6 / 50000 ∧
     finalIter 6 0 = 6 ∧
     (6 % 2 = 0 → (stepEvents true 2 3 2 6).count .saveLast = 1)) :=
  ⟨⟨by decide, by decide, by decide⟩,
    C10_event_cadence_counts 6 2 3 2 (by decide) (by decide) (by decide) (by decide)⟩

/-! ## Claims C2, C3 : loss primitives -/

/-- The numerically stable form of binary cross entropy with logits computed
by the code agrees with the textbook cross entropy the spec describes. -/
theorem bce_with_logits_eq_crossEntropy (x y : ℝ) :
    bce_with_logits x y = crossEntropy x y := by
  have hpos : (0 : ℝ) < 1 + Real.exp (-x) := by positivity
  have hlog1 : Real.log (sigmoid x) = -Real.log (1 + Real.exp (-x)) := by
    rw [sigmoid, one_div, Real.log_inv]
  have h1s : 1 - sigmoid x = Real.exp (-x) / (1 + Real.exp (-x)) := by
    rw [sigmoid]
    field_simp
  have hlog2 : Real.log (1 - sigmoid x) = -x - Real.log (1 + Real.exp (-x)) := by
    rw [h1s, Real.log_div (Real.exp_ne_zero _) (ne_of_gt hpos), Real.log_exp]
  unfold bce_with_logits crossEntropy
  rw [hlog1, hlog2]
  rcases le_or_lt 0 x with h | h
  · rw [abs_of_nonneg h, max_eq_left h]
    ring
  · rw [abs_of_neg h, max_eq_right h.le, neg_neg]
    have hprod : Real.exp x * (1 + Real.exp (-x)) = 1 + Real.exp x := by
      rw [mul_add, mul_one, ← Real.exp_add]
      simp [add_comm]
    have key : Real.log (1 + Real.exp x) = x + Real.log (1 + Real.exp (-x)) := by
      rw [show x + Real.log (1 + Real.exp (-x))
            = Real.log (Real.exp x) + Real.log (1 + Real.exp (-x)) by rw [Real.log_exp],
          ← Real.log_mul (Real.exp_ne_zero x) (ne_of_gt hpos), hprod]
    rw [key]
    ring

/-- The per-element binary cross entropy at an all-zero logit and an all-zero
target is `ln 2`. -/
theorem bce_with_logits_zero : bce_with_logits 0 0 = Real.log 2 := by
  norm_num [bce_with_logits, Real.exp_zero]

/-- C3: with a nonzero batch, `reconstruction_loss` under `'bernoulli'`
returns the binary cross entropy between logits and targets summed over
every element of the batch and divided by the batch size, and under
`'gaussian'` the sum over the batch of squared errors between the
logistic-squashed reconstructions and the targets divided by the batch size;
at all-zero targets and all-zero logits the bernoulli loss is `ln 2` times
the number of pixels of the batch divided by the batch size. -/
theorem C3_reconstruction_loss_forms (B P : ℕ) (hB : B ≠ 0)
    (x x_recon : Fin B → Fin P → ℝ) :
    reconstruction_loss x x_recon "bernoulli"
      = .ok (some ((∑ i, ∑ j, crossEntropy (x_recon i j) (x i j)) / B)) ∧
    reconstruction_loss x x_recon "gaussian"
      = .ok (some ((∑ i, ∑ j, (sigmoid (x_recon i j) - x i j) ^ 2) / B)) ∧
    reconstruction_loss (fun (_ : Fin B) (_ : Fin P) => (0 : ℝ)) (fun _ _ => 0)
        "bernoulli"
      = .ok (some ((B : ℝ) * ((P : ℝ) * Real.log 2) / B)) := by
  refine ⟨?_, ?_, ?_⟩
  · rw [reconstruction_loss_eq_ok hB x x_recon _ (Or.inl rfl)]
    simp [recon_value, bernoulli_recon, bce_with_logits_eq_crossEntropy]
  · rw [reconstruction_loss_eq_ok hB x x_recon _ (Or.inr rfl)]
    simp [recon_value, gaussian_recon]
  · rw [reconstruction_loss_eq_ok hB _ _ _ (Or.inl rfl)]
    simp [recon_value, bernoulli_recon, bce_with_logits_zero,
      Finset.sum_const, Finset.card_univ, nsmul_eq_mul, mul_assoc]

/-- C3 witness: the theorem at a batch of one all-zero one-pixel image, where
the bernoulli loss is `1 * (1 * ln 2) / 1`. -/
theorem C3_reconstruction_loss_forms_witness :
    (1 ≠ 0) ∧
    (reconstruction_loss (fun (_ : Fin 1) (_ : Fin 1) => (0 : ℝ)) (fun _ _ => 0)
        "bernoulli"
      = .ok (some ((∑ i, ∑ j,
          crossEntropy ((fun (_ : Fin 1) (_ : Fin 1) => (0 : ℝ)) i j)
            ((fun (_ : Fin 1) (_ : Fin 1) => (0 : ℝ)) i j)) / ((1 : ℕ) : ℝ))) ∧
     reconstruction_loss (fun (_ : Fin 1) (_ : Fin 1) => (0 : ℝ)) (fun _ _ => 0)
        "gaussian"
      = .ok (some ((∑ i, ∑ j,
          (sigmoid ((fun (_ : Fin 1) (_ : Fin 1) => (0 : ℝ)) i j)
            - (fun (_ : Fin 1) (_ : Fin 1) => (0 : ℝ)) i j) ^ 2) / ((1 : ℕ) : ℝ))) ∧
     reconstruction_loss (fun (_ : Fin 1) (_ : Fin 1) => (0 : ℝ)) (fun _ _ => 0)
        "bernoulli"
      = .ok (some (((1 : ℕ) : ℝ) * (((1 : ℕ) : ℝ) * Real.log 2) / ((1 : ℕ) : ℝ)))) :=
  ⟨by decide, C3_reconstruction_loss_forms 1 1 (by decide)
    (fun _ _ => 0) (fun _ _ => 0)⟩

/-- The per-element KL term vanishes at a standard-normal posterior. -/
theorem kld_elem_zero : kld_elem 0 0 = 0 := by
  norm_num [kld_elem, Real.exp_zero]

/-- C2: with a nonzero batch, `kl_divergence` returns the three views of the
per-element term `-0.5 * (1 + logvar - mean^2 - exp(logvar))` — the total
(sum over latent dimensions then mean over the batch), the dimension-wise
value (mean over the batch only) and the mean (mean over latent dimensions
then mean over the batch); 4-dimensional inputs are first reshaped to 2-D;
and at `mean = 0`, `logvar = 0` all three views are exactly 0. -/
theorem C2_kl_divergence_views (B D : ℕ) (hB : B ≠ 0)
    (mu logvar : Fin B → Fin D → ℝ) :
    kl_divergence mu logvar = .ok
      ((∑ i, ∑ j, -(1 / 2 : ℝ) * (1 + logvar i j - mu i j ^ 2
          - Real.exp (logvar i j))) / (B : ℝ),
       fun j => (∑ i, -(1 / 2 : ℝ) * (1 + logvar i j - mu i j ^ 2
          - Real.exp (logvar i j))) / (B : ℝ),
       (∑ i, (∑ j, -(1 / 2 : ℝ) * (1 + logvar i j - mu i j ^ 2
          - Real.exp (logvar i j))) / (D : ℝ)) / (B : ℝ)) ∧
    (∀ mu4 logvar4 : Fin B → Fin D → Fin 1 → Fin 1 → ℝ,
      kl_divergence4 mu4 logvar4
        = kl_divergence (squeeze4 mu4) (squeeze4 logvar4)) ∧
    kl_divergence (fun (_ : Fin B) (_ : Fin D) => (0 : ℝ)) (fun _ _ => 0)
      = .ok (0, fun _ => 0, 0) := by
  refine ⟨?_, fun mu4 logvar4 => rfl, ?_⟩
  · rw [kl_divergence_eq_ok hB]
    rfl
  · have ha : total_kld_val (fun (_ : Fin B) (_ : Fin D) => (0 : ℝ))
        (fun _ _ => 0) = 0 := by
      simp [total_kld_val, kld_elem_zero]
    have hb : dimension_wise_kld_val (fun (_ : Fin B) (_ : Fin D) => (0 : ℝ))
        (fun _ _ => 0) = fun _ => 0 := by
      funext j
      simp [dimension_wise_kld_val, kld_elem_zero]
    have hc : mean_kld_val (fun (_ : Fin B) (_ : Fin D) => (0 : ℝ))
        (fun _ _ => 0) = 0 := by
      simp [mean_kld_val, kld_elem_zero]
    rw [kl_divergence_eq_ok hB, ha, hb, hc]

/-- C2 witness: the theorem at a batch of one one-dimensional latent
statistic. -/
theorem C2_kl_divergence_views_witness :
    (1 ≠ 0) ∧
    (kl_divergence (fun (_ : Fin 1) (_ : Fin 1) => (0 : ℝ)) (fun _ _ => 0) = .ok
      ((∑ i, ∑ j, -(1 / 2 : ℝ)
          * (1 + (fun (_ : Fin 1) (_ : Fin 1) => (0 : ℝ)) i j
            - (fun (_ : Fin 1) (_ : Fin 1) => (0 : ℝ)) i j ^ 2
            - Real.exp ((fun (_ : Fin 1) (_ : Fin 1) => (0 : ℝ)) i j)))
          / ((1 : ℕ) : ℝ),
       fun j => (∑ i, -(1 / 2 : ℝ)
          * (1 + (fun (_ : Fin 1) (_ : Fin 1) => (0 : ℝ)) i j
            - (fun (_ : Fin 1) (_ : Fin 1) => (0 : ℝ)) i j ^ 2
            - Real.exp ((fun (_ : Fin 1) (_ : Fin 1) => (0 : ℝ)) i j)))
          / ((1 : ℕ) : ℝ),
       (∑ i, (∑ j, -(1 / 2 : ℝ)
          * (1 + (fun (_ : Fin 1) (_ : Fin 1) => (0 : ℝ)) i j
            - (fun (_ : Fin 1) (_ : Fin 1) => (0 : ℝ)) i j ^ 2
            - Real.exp ((fun (_ : Fin 1) (_ : Fin 1) => (0 : ℝ)) i j)))
          / ((1 : ℕ) : ℝ)) / ((1 : ℕ) : ℝ)) ∧
     (∀ mu4 logvar4 : Fin 1 → Fin 1 → Fin 1 → Fin 1 → ℝ,
       kl_divergence4 mu4 logvar4
         = kl_divergence (squeeze4 mu4) (squeeze4 logvar4)) ∧
     kl_divergence (fun (_ : Fin 1) (_ : Fin 1) => (0 : ℝ)) (fun _ _ => 0)
       = .ok (0, fun _ => 0, 0)) :=
  ⟨by decide, C2_kl_divergence_views 1 1 (by decide)
    (fun _ _ => 0) (fun _ _ => 0)⟩

/-! ## Claim C9 : Wasserstein-2 estimator -/

/-- C9: for every batch of latent codes, every realization of the reference
sample and every matching extracted from the transport plan,
`Wasserstein2_dist` returns the square root of the mean over the `N` codes
of the squared Euclidean distance between each code and its matched
reference point, and the returned value is non-negative. -/
theorem C9_wasserstein_sqrt_mean (N d : ℕ) (hN : 0 < N)
    (z prior : Fin N → Fin d → ℝ) (m : Fin N → Fin N) :
    Wasserstein2_dist z prior m
      = Real.sqrt ((∑ i, sqEuclid (z i) (prior (m i))) / N) ∧
    0 ≤ Wasserstein2_dist z prior m :=
  ⟨rfl, Real.sqrt_nonneg _⟩

/-- C9 witness: the theorem at a single one-dimensional latent code. -/
theorem C9_wasserstein_sqrt_mean_witness :
    (0 < 1) ∧
    (Wasserstein2_dist (fun (_ : Fin 1) (_ : Fin 1) => (0 : ℝ)) (fun _ _ => 0) id
      = Real.sqrt ((∑ i,
          sqEuclid ((fun (_ : Fin 1) (_ : Fin 1) => (0 : ℝ)) i)
            ((fun (_ : Fin 1) (_ : Fin 1) => (0 : ℝ)) (id i))) / ((1 : ℕ) : ℝ)) ∧
     0 ≤ Wasserstein2_dist (fun (_ : Fin 1) (_ : Fin 1) => (0 : ℝ))
          (fun _ _ => 0) id) :=
  ⟨by decide, C9_wasserstein_sqrt_mean 1 1 (by decide)
    (fun _ _ => 0) (fun _ _ => 0) id⟩

/-! ## Claim C1 : objective selection in the training step -/

/-- C1: for every training step with a supported configuration (nonzero
batch, supported decoder distribution): a model family `'H'` or `'B'` with
objective `'H'` yields loss = reconstruction loss + `beta` · total KL; with
objective `'B'` it yields reconstruction loss +
`gamma` · |total KL − C| where `C = clamp(C_max/C_stop_iter · iter, 0, C_max)`;
the `'WAE'` family yields reconstruction loss + the Wasserstein-2 estimate
on the latent codes. -/
theorem C1_train_step_objective (B P D N d : ℕ) (hB : B ≠ 0)
    (model objective dist : String)
    (hdist : dist = "bernoulli" ∨ dist = "gaussian")
    (beta gamma C_max C_stop_iter : ℝ) (gi : ℕ)
    (x x_recon : Fin B → Fin P → ℝ) (mu logvar : Fin B → Fin D → ℝ)
    (z prior : Fin N → Fin d → ℝ) (m : Fin N → Fin N) :
    ((model = "H" ∨ model = "B") → objective = "H" →
      trainStepLoss model objective beta gamma C_max C_stop_iter gi dist
          x x_recon mu logvar z prior m
        = .ok (recon_value x x_recon dist
            + beta * total_kld_val mu logvar)) ∧
    ((model = "H" ∨ model = "B") → objective = "B" →
      trainStepLoss model objective beta gamma C_max C_stop_iter gi dist
          x x_recon mu logvar z prior m
        = .ok (recon_value x x_recon dist
            + gamma * |total_kld_val mu logvar
                - clamp (C_max / C_stop_iter * gi) 0 C_max|)) ∧
    (model = "WAE" →
      trainStepLoss model objective beta gamma C_max C_stop_iter gi dist
          x x_recon mu logvar z prior m
        = .ok (recon_value x x_recon dist + Wasserstein2_dist z prior m)) := by
  have hrl := reconstruction_loss_eq_ok hB x x_recon dist hdist
  have hkl := kl_divergence_eq_ok hB mu logvar
  refine ⟨?_, ?_, ?_⟩
  · intro hm ho
    subst ho
    rcases hm with hm | hm <;> subst hm <;>
      simp [trainStepLoss, hrl, hkl, capacityC]
  · intro hm ho
    subst ho
    rcases hm with hm | hm <;> subst hm <;>
      simp [trainStepLoss, hrl, hkl, capacityC]
  · intro hm
    subst hm
    simp [trainStepLoss, hrl]

/-- C1 witness: the theorem at a batch of one all-zero one-pixel image with a
one-dimensional latent, model `'H'`, and the bernoulli distribution; its
three conjuncts cover the three objective combinations at this input. -/
theorem C1_train_step_objective_witness :
    (1 ≠ 0 ∧ (("bernoulli" : String) = "bernoulli" ∨ ("bernoulli" : String) = "gaussian")) ∧
    ((("H" : String) = "H" ∨ ("H" : String) = "B") → ("H" : String) = "H" →
      trainStepLoss "H" "H" 2 3 5 7 0 "bernoulli"
          (fun (_ : Fin 1) (_ : Fin 1) => (0 : ℝ)) (fun _ _ => 0)
          (fun (_ : Fin 1) (_ : Fin 1) => (0 : ℝ)) (fun _ _ => 0)
          (fun (_ : Fin 1) (_ : Fin 1) => (0 : ℝ)) (fun _ _ => 0) id
        = .ok (recon_value (fun (_ : Fin 1) (_ : Fin 1) => (0 : ℝ)) (fun _ _ => 0)
              "bernoulli"
            + 2 * total_kld_val (fun (_ : Fin 1) (_ : Fin 1) => (0 : ℝ))
                (fun _ _ => 0))) ∧
    ((("H" : String) = "H" ∨ ("H" : String) = "B") → ("H" : String) = "B" →
      trainStepLoss "H" "H" 2 3 5 7 0 "bernoulli"
          (fun (_ : Fin 1) (_ : Fin 1) => (0 : ℝ)) (fun _ _ => 0)
          (fun (_ : Fin 1) (_ : Fin 1) => (0 : ℝ)) (fun _ _ => 0)
          (fun (_ : Fin 1) (_ : Fin 1) => (0 : ℝ)) (fun _ _ => 0) id
        = .ok (recon_value (fun (_ : Fin 1) (_ : Fin 1) => (0 : ℝ)) (fun _ _ => 0)
              "bernoulli"
            + 3 * |total_kld_val (fun (_ : Fin 1) (_ : Fin 1) => (0 : ℝ))
                  (fun _ _ => 0)
                - clamp (5 / 7 * ((0 : ℕ) : ℝ)) 0 5|)) ∧
    (("H" : String) = "WAE" →
      trainStepLoss "H" "H" 2 3 5 7 0 "bernoulli"
          (fun (_ : Fin 1) (_ : Fin 1) => (0 : ℝ)) (fun _ _ => 0)
          (fun (_ : Fin 1) (_ : Fin 1) => (0 : ℝ)) (fun _ _ => 0)
          (fun (_ : Fin 1) (_ : Fin 1) => (0 : ℝ)) (fun _ _ => 0) id
        = .ok (recon_value (fun (_ : Fin 1) (_ : Fin 1) => (0 : ℝ)) (fun _ _ => 0)
              "bernoulli"
            + Wasserstein2_dist (fun (_ : Fin 1) (_ : Fin 1) => (0 : ℝ))
                (fun _ _ => 0) id)) :=
  ⟨⟨by decide, Or.inl rfl⟩,
    C1_train_step_objective 1 1 1 1 1 (by decide) "H" "H" "bernoulli"
      (Or.inl rfl) 2 3 5 7 0 _ _ _ _ _ _ id⟩

end BetaVAE
